import Mathlib

/-!
Verification of the llm-proxy request-forwarding pipeline.

This file gives a shallow embedding of the JavaScript source of the proxy
(src/modules/proxy.js, src/modules/config.js, src/modules/logger.js and the
error middleware) and proves properties of the embedded definitions.

JavaScript objects used as header maps are modelled as association lists of
string pairs in insertion order, with the exact-key update, delete and lookup
operations that JavaScript object syntax performs.  The observable behaviour
of one proxied request is modelled as a trace of events (header writes,
status writes, body writes, log writes), produced by a pure function of the
configuration store, the inbound request and the upstream transport outcome.
-/

/-- Header maps: association lists of (name, value) in insertion order,
mirroring a JavaScript object whose keys are header names. -/
abbrev Headers := List (String × String)

/-- Exact-key lookup, mirroring `obj[k]` on a JavaScript object
(returns the first binding; JavaScript objects hold unique keys). -/
def jsGet (hs : Headers) (k : String) : Option String :=
  (hs.find? (fun p => p.1 == k)).map (fun p => p.2)

/-- Exact-key assignment, mirroring `obj[k] = v`: overwrites the binding in
place when the key is present, otherwise appends a new binding at the end. -/
def jsSet (hs : Headers) (k v : String) : Headers :=
  if hs.any (fun p => p.1 == k) then
    hs.map (fun p => if p.1 == k then (k, v) else p)
  else
    hs ++ [(k, v)]

/-- Exact-key removal, mirroring `delete obj[k]`. -/
def jsDelete (hs : Headers) (k : String) : Headers :=
  hs.filter (fun p => p.1 != k)

/-- Lowercasing of a header name, mirroring `String.prototype.toLowerCase`
on the ASCII header names the proxy handles (character-wise lowercasing). -/
def lowerStr (s : String) : String := String.mk (s.data.map Char.toLower)

/-- Effective value of a header as transmitted on the wire by the HTTP
client: header names are case-insensitive and, when the header object holds
bindings whose names differ only in case, later bindings override earlier
ones.  This mirrors how the axios HTTP client folds a plain header object,
in insertion order, into a case-insensitive header collection before
sending the request. -/
def effectiveHeader (hs : Headers) (k : String) : Option String :=
  hs.foldl (fun acc p => if lowerStr p.1 == lowerStr k then some p.2 else acc) none

/-- JavaScript values, as far as the proxy inspects request bodies. -/
inductive JsVal where
  | vNull
  | vUndefined
  | vBool (b : Bool)
  | vNum (n : Int)
  | vStr (s : String)
  | vObj (fields : List (String × JsVal))

/-- JavaScript truthiness of a value. -/
def jsTruthy : JsVal → Bool
  | JsVal.vNull => false
  | JsVal.vUndefined => false
  | JsVal.vBool b => b
  | JsVal.vNum n => n != 0
  | JsVal.vStr s => s != ""
  | JsVal.vObj _ => true

/-- Field access `v.k` on a JavaScript value: a field of an object, and
undefined (here `none`) on every non-object. -/
def jsField (v : JsVal) (k : String) : Option JsVal :=
  match v with
  | JsVal.vObj fields => (fields.find? (fun p => p.1 == k)).map (fun p => p.2)
  | _ => none

/-- Strict comparison `x === true` applied to an optional field value,
mirroring `req.body.stream === true`. -/
def isStreamTrue : Option JsVal → Bool
  | some (JsVal.vBool true) => true
  | _ => false

/-- Single-quote character as a string, used to build the error messages of
the source without quote literals. -/
def quoteCh : String := String.mk [Char.ofNat 39]

/-- Configuration entry for one (profile, version) pair, as read from the
JSON configuration store (src/modules/config.js). -/
structure ProfileConfig where
  baseUrl : String
  apiKey : String

/-- Whitespace trim, mirroring `String.prototype.trim` (character-wise
removal of leading and trailing whitespace). -/
def trimStr (s : String) : String :=
  String.mk (((s.data.dropWhile Char.isWhitespace).reverse.dropWhile Char.isWhitespace).reverse)

/-- Embeds validateConfig of src/modules/config.js: the stored object must
carry string fields baseUrl and apiKey whose trimmed values are non-empty.
The JavaScript truthiness and typeof-string tests are discharged by the
types of the fields here; the two trim tests are kept verbatim. -/
def validateConfig (config : ProfileConfig) : Bool :=
  trimStr config.baseUrl != "" && trimStr config.apiKey != ""

/-- Scan for the scheme separator of a URL, returning the text after it. -/
def dropScheme : List Char → Option (List Char)
  | [] => none
  | ':' :: '/' :: '/' :: rest => some rest
  | _ :: rest => dropScheme rest

/-- Host part of a URL, modelling `new URL(u).host`: the text between the
scheme separator and the following slash; `none` models the URL constructor
throwing when no scheme separator is present. -/
def urlHost (u : String) : Option String :=
  match dropScheme u.data with
  | some rest => some (String.mk (rest.takeWhile (fun c => c != '/')))
  | none => none

/-- Embeds prepareHeaders of src/modules/proxy.js: copy the incoming
headers, assign the Authorization bearer credential, delete host and
content-length, then recompute host from the target URL (keeping host unset
when URL parsing fails). -/
def prepareHeaders (incomingHeaders : Headers) (apiKey : String) (targetUrl : String) : Headers :=
  let headers := incomingHeaders
  let headers := jsSet headers "Authorization" ("Bearer " ++ apiKey)
  let headers := jsDelete headers "host"
  let headers := jsDelete headers "content-length"
  match urlHost targetUrl with
  | some h => jsSet headers "host" h
  | none => headers

/-- Upstream response body as the proxy distinguishes it: a buffered payload
(modelled by its textual form), or an incremental stream that emits the
listed chunks and then either ends cleanly (`err = none`) or raises a
stream error (`err = some message`).  Only the stream shape exposes the
event-listener interface `data.on`. -/
inductive UpBody where
  | buffered (s : String)
  | stream (chunks : List String) (err : Option String)

/-- Truthiness of `response.data`: the empty buffered string is falsy, a
stream object is truthy. -/
def upTruthy : UpBody → Bool
  | UpBody.buffered s => s != ""
  | UpBody.stream _ _ => true

/-- Test `typeof response.data.on === "function"`: only a stream exposes the
event-listener interface. -/
def upHasOn : UpBody → Bool
  | UpBody.buffered _ => false
  | UpBody.stream _ _ => true

/-- Embeds isStreamingResponse of src/modules/proxy.js: the request body
must be truthy with a field stream strictly equal to true, and the response
data must be truthy and expose the event-listener interface. -/
def isStreamingResponse (respData : UpBody) (reqBody : JsVal) : Bool :=
  jsTruthy reqBody && isStreamTrue (jsField reqBody "stream")
    && upTruthy respData && upHasOn respData

/-- Outcome of the outbound axios call: a response delivered with any HTTP
status (validateStatus accepts them all), an error that still carries an
upstream response, or a connection-level error carrying only an error code
such as ECONNREFUSED or ETIMEDOUT and neither a response nor a status
field. -/
inductive Transport where
  | ok (status : Nat) (headers : Headers) (body : UpBody)
  | httpErrResp (status : Nat) (headers : Headers) (data : String)
  | netErr (code : String)

/-- Inbound request as the proxy consumes it. -/
structure Req where
  profile : String
  version : String
  path : String
  headers : Headers
  body : JsVal
  query : List (String × String)

/-- Observable events of one proxied request: header, status and body
writes to the client connection, the outbound header map handed to the
transport, and the log writes. -/
inductive Ev where
  | outbound (headers : Headers)
  | hdr (k v : String)
  | stat (code : Nat)
  | sendBody (s : String)
  | sendErrJson (code : Nat) (error : String) (requestId : Option String)
  | sendPassthrough (code : Nat) (data : String)
  | chunkOut (s : String)
  | closeOut
  | logSuccess (status : Nat) (respBody : String)
  | logFailure (msg : String)
  deriving DecidableEq

/-- Error message thrown when getConfig finds no entry (proxy.js line 23). -/
def cfgNotFoundMsg (profile version : String) : String :=
  "Configuration not found for profile " ++ quoteCh ++ profile ++ quoteCh
    ++ " and version " ++ quoteCh ++ version ++ quoteCh

/-- Error message thrown when validateConfig rejects (proxy.js line 30). -/
def invalidCfgMsg (profile version : String) : String :=
  "Invalid configuration for profile " ++ quoteCh ++ profile ++ quoteCh
    ++ " and version " ++ quoteCh ++ version ++ quoteCh

/-- Embeds setResponseHeaders of src/modules/proxy.js as the header-write
events it performs: every upstream header is copied to the client response
except those whose lowercased name is transfer-encoding or connection. -/
def setResponseHeadersEv (upstreamHeaders : Headers) : List Ev :=
  (upstreamHeaders.filter
      (fun p => !(["transfer-encoding", "connection"].contains (lowerStr p.1)))).map
    (fun p => Ev.hdr p.1 p.2)

/-- Content type chosen by the streaming handler:
`response.headers["content-type"] || "text/event-stream"`, where the
JavaScript or-else also replaces an empty string. -/
def contentTypeOrDefault (hs : Headers) : String :=
  match jsGet hs "content-type" with
  | some s => if s == "" then "text/event-stream" else s
  | none => "text/event-stream"

/-- Embeds handleRegularResponse of src/modules/proxy.js: a single body
write of the buffered payload followed by one interaction record whose
response body is the textual form of the payload. -/
def handleRegularEv (status : Nat) (body : String) : List Ev :=
  [Ev.sendBody body, Ev.logSuccess status body]

/-- Embeds handleStreamingResponse of src/modules/proxy.js: the three fixed
streaming headers, one client write per upstream chunk in emission order
(each chunk also appended to the in-memory accumulator), then, on clean
stream end, close followed by one interaction record carrying the
accumulated body, and, on a stream error event, one error record followed
by the defensive close. -/
def handleStreamingEv (status : Nat) (hs : Headers) (chunks : List String)
    (err : Option String) : List Ev :=
  [Ev.hdr "Content-Type" (contentTypeOrDefault hs),
   Ev.hdr "Cache-Control" "no-cache",
   Ev.hdr "Connection" "keep-alive"]
  ++ chunks.map Ev.chunkOut
  ++ match err with
     | none => [Ev.closeOut, Ev.logSuccess status (String.join chunks)]
     | some _ => [Ev.logFailure "Streaming response error", Ev.closeOut]

/-- Textual form of a buffered payload for handleRegularResponse.  A stream
body never reaches the buffered handler (responseType is only set to stream
when the stream flag is on, and then isStreamingResponse is true), so the
stream case is given the empty form. -/
def textOfUpBody : UpBody → String
  | UpBody.buffered s => s
  | UpBody.stream _ _ => ""

/-- Embeds proxyRequest of src/modules/proxy.js as the event trace of one
inbound request.  The configuration store is getConfig; a missing entry
throws a 404-status error and an invalid one a 500-status error, both
caught by the catch block which logs the failure and answers with the error
message and the request id.  With a valid configuration the outbound header
map is built and the transport outcome is dispatched: a delivered response
has its headers and status relayed and is then handled in streaming or
buffered mode; an error still carrying an upstream response is logged and
relayed as-is; a connection-level error is logged and answered with the
generic 500 body, the error code never being consulted. -/
def proxyRequest (store : String → String → Option ProfileConfig) (req : Req)
    (transport : Transport) (requestId : String) : List Ev :=
  match store req.profile req.version with
  | none =>
      [Ev.logFailure "Proxy request failed",
       Ev.sendErrJson 404 (cfgNotFoundMsg req.profile req.version) (some requestId)]
  | some config =>
      if validateConfig config then
        Ev.outbound (prepareHeaders req.headers config.apiKey
            (config.baseUrl ++ "/" ++ req.path)) ::
        match transport with
        | Transport.ok status hs body =>
            setResponseHeadersEv hs ++ [Ev.stat status] ++
            (match body, isStreamingResponse body req.body with
             | UpBody.stream chunks err, true => handleStreamingEv status hs chunks err
             | b, _ => handleRegularEv status (textOfUpBody b))
        | Transport.httpErrResp status hs data =>
            [Ev.logFailure "Proxy request failed"] ++ setResponseHeadersEv hs
              ++ [Ev.sendPassthrough status data]
        | Transport.netErr _ =>
            [Ev.logFailure "Proxy request failed",
             Ev.sendErrJson 500 "Internal server error" (some requestId)]
      else
        [Ev.logFailure "Proxy request failed",
         Ev.sendErrJson 500 (invalidCfgMsg req.profile req.version) (some requestId)]

/-- Terminal log writes: one interaction record or one error record. -/
def isTerminalLog : Ev → Bool
  | Ev.logSuccess _ _ => true
  | Ev.logFailure _ => true
  | _ => false

/-- Events that complete the HTTP response to the client: a buffered body
write, a JSON error body, an upstream error passthrough, or the close of a
streaming response. -/
def isResponseDone : Ev → Bool
  | Ev.sendBody _ => true
  | Ev.sendErrJson _ _ _ => true
  | Ev.sendPassthrough _ _ => true
  | Ev.closeOut => true
  | _ => false

/-- Number of terminal log writes in a trace. -/
def terminalLogCount (t : List Ev) : Nat := t.countP isTerminalLog

/-- Number of response-completing writes in a trace. -/
def responseCount (t : List Ev) : Nat := t.countP isResponseDone

/-- Chunks written to the client connection, in order. -/
def writesOf (t : List Ev) : List String :=
  t.filterMap (fun e => match e with | Ev.chunkOut s => some s | _ => none)

/-- Bodies of the interaction records in a trace, in order. -/
def okLogBodies (t : List Ev) : List String :=
  t.filterMap (fun e => match e with | Ev.logSuccess _ b => some b | _ => none)

/-- Messages of the error records in a trace, in order. -/
def errLogMsgs (t : List Ev) : List String :=
  t.filterMap (fun e => match e with | Ev.logFailure m => some m | _ => none)

/-- Redaction marker written in place of sensitive header values. -/
def REDACTED : String := "[REDACTED]"

/-- Request snapshot inside a log record (method, url, headers, body). -/
structure ReqSnap where
  method : String
  url : String
  headers : Headers
  body : String

/-- Response snapshot inside a log record (status, headers, body). -/
structure RespSnap where
  status : Nat
  headers : Headers
  body : String

/-- Log record handed to sanitizeLogData: optional request and response
snapshots plus scalar fields that the sanitizer passes through. -/
structure LogRecord where
  request : Option ReqSnap
  response : Option RespSnap
  requestId : String
  durationMs : Nat

/-- Deep clone `JSON.parse(JSON.stringify(data))`: on a record of plain
strings and numbers such as `LogRecord` this round-trip is the identity. -/
def jsonClone (data : LogRecord) : LogRecord := data

/-- Sensitive request header names checked by sanitizeLogData. -/
def sensitiveRequestHeaders : List String := ["authorization", "x-api-key", "cookie"]

/-- Sensitive response header names checked by sanitizeLogData. -/
def sensitiveResponseHeaders : List String := ["set-cookie", "authorization"]

/-- One step of the sanitizer loop: `if (headers[h]) headers[h] = REDACTED`,
replacing the value only when the lookup is truthy (present and not the
empty string). -/
def redactIfTruthy (hs : Headers) (k : String) : Headers :=
  match jsGet hs k with
  | some v => if v != "" then jsSet hs k REDACTED else hs
  | none => hs

/-- Embeds sanitizeLogData of src/modules/logger.js: deep-clone the record,
then redact the truthy sensitive headers of the request snapshot and of the
response snapshot, each list processed in order.  The JavaScript guards
`sanitized.request && sanitized.request.headers` are the option matches
here (the snapshots always carry a headers object in this model). -/
def sanitizeLogData (data : LogRecord) : LogRecord :=
  let sanitized := jsonClone data
  let sanitized :=
    match sanitized.request with
    | some r =>
        { sanitized with
          request := some { r with headers := sensitiveRequestHeaders.foldl redactIfTruthy r.headers } }
    | none => sanitized
  match sanitized.response with
  | some r =>
      { sanitized with
        response := some { r with headers := sensitiveResponseHeaders.foldl redactIfTruthy r.headers } }
  | none => sanitized

/-- Headers of the request snapshot of a record (empty when absent). -/
def requestHeadersOf (d : LogRecord) : Headers :=
  match d.request with
  | some r => r.headers
  | none => []

/-- Headers of the response snapshot of a record (empty when absent). -/
def responseHeadersOf (d : LogRecord) : Headers :=
  match d.response with
  | some r => r.headers
  | none => []

/-- Error object as the error middleware inspects it: message plus the
optional status, code and name fields. -/
structure JsError where
  message : String
  status : Option Nat
  code : Option String
  name : Option String

/-- Embeds the classification chain of errorHandler in
src/middleware/error.js: an explicit status wins, then the connection
error codes map to 502 and 504, then the named validation and
authorization errors, and everything else is a generic 500. -/
def classifyError (err : JsError) : Nat × String :=
  match err.status with
  | some s => (s, err.message)
  | none =>
      if err.code == some "ECONNREFUSED" then
        (502, "Bad Gateway - Unable to connect to upstream service")
      else if err.code == some "ETIMEDOUT" then
        (504, "Gateway Timeout - Upstream service timeout")
      else if err.name == some "ValidationError" then
        (400, "Bad Request - Invalid input data")
      else if err.name == some "UnauthorizedError" then
        (401, "Unauthorized")
      else
        (500, "Internal Server Error")

/-- Assignment to a key that is absent appends the binding at the end. -/
theorem jsSet_of_not_mem (hs : Headers) (k v : String)
    (h : hs.any (fun p => p.1 == k) = false) : jsSet hs k v = hs ++ [(k, v)] := by
  simp only [jsSet, h, Bool.false_eq_true, if_false]

/-- Deletion distributes over list append. -/
theorem jsDelete_append (a b : Headers) (k : String) :
    jsDelete (a ++ b) k = jsDelete a k ++ jsDelete b k := by
  simp [jsDelete, List.filter_append]

/-- Effective lookup after appending one binding: the appended binding wins
when its name matches case-insensitively, otherwise the lookup proceeds on
the prefix. -/
theorem effectiveHeader_append_single (m : Headers) (k0 v0 k : String) :
    effectiveHeader (m ++ [(k0, v0)]) k =
      if lowerStr k0 == lowerStr k then some v0 else effectiveHeader m k := by
  simp [effectiveHeader, List.foldl_append]

/-- C1. For every inbound request with a valid profile configuration, the
header map produced by prepareHeaders carries the profile credential as the
authorization value actually transmitted upstream: under the case-insensitive
resolution the HTTP client applies to the header object, the outbound
authorization header equals the bearer form of the configured apiKey, and no
client-supplied authorization value survives, whether or not the inbound
request carried an authorization header.  The hypothesis records that the
HTTP server hands the proxy lowercased inbound header names. -/
theorem c1_authorization_substituted (incoming : Headers) (apiKey targetUrl : String)
    (hlow : ∀ p ∈ incoming, lowerStr (Prod.fst p) = Prod.fst p) :
    effectiveHeader (prepareHeaders incoming apiKey targetUrl) "authorization"
        = some ("Bearer " ++ apiKey)
      ∧ ∀ cv, cv ≠ "Bearer " ++ apiKey →
          effectiveHeader (prepareHeaders incoming apiKey targetUrl) "authorization"
            ≠ some cv := by
  have hnot : incoming.any (fun p => p.1 == "Authorization") = false := by
    rw [List.any_eq_false]
    intro p hp hpe
    have h1 : p.1 = "Authorization" := eq_of_beq hpe
    have h2 := hlow p hp
    rw [h1] at h2
    exact absurd h2 (by decide)
  have hmain : effectiveHeader (prepareHeaders incoming apiKey targetUrl) "authorization"
      = some ("Bearer " ++ apiKey) := by
    unfold prepareHeaders
    dsimp only
    rw [jsSet_of_not_mem _ _ _ hnot]
    rw [jsDelete_append, jsDelete_append]
    have hd1 : jsDelete [("Authorization", "Bearer " ++ apiKey)] "host"
        = [("Authorization", "Bearer " ++ apiKey)] := by
      simp [jsDelete, List.filter_cons]
    have hd2 : jsDelete [("Authorization", "Bearer " ++ apiKey)] "content-length"
        = [("Authorization", "Bearer " ++ apiKey)] := by
      simp [jsDelete, List.filter_cons]
    rw [hd1, hd2]
    set B := jsDelete (jsDelete incoming "host") "content-length" with hB
    have heffB : effectiveHeader (B ++ [("Authorization", "Bearer " ++ apiKey)]) "authorization"
        = some ("Bearer " ++ apiKey) := by
      rw [effectiveHeader_append_single]
      have hc : (lowerStr "Authorization" == lowerStr "authorization") = true := by decide
      rw [hc]
      simp
    have hhost : (B ++ [("Authorization", "Bearer " ++ apiKey)]).any
        (fun p => p.1 == "host") = false := by
      rw [List.any_eq_false]
      intro p hp hpe
      have h1 : p.1 = "host" := eq_of_beq hpe
      rcases List.mem_append.mp hp with h | h
      · rw [hB] at h
        simp only [jsDelete, List.mem_filter] at h
        have := h.1.2
        rw [h1] at this
        simp at this
      · simp only [List.mem_singleton] at h
        rw [h] at h1
        simp at h1
    cases hu : urlHost targetUrl with
    | some h =>
        dsimp only
        rw [jsSet_of_not_mem _ _ _ hhost]
        rw [effectiveHeader_append_single]
        have hc : (lowerStr "host" == lowerStr "authorization") = false := by decide
        rw [hc]
        simpa using heffB
    | none => exact heffB
  refine ⟨hmain, ?_⟩
  intro cv hcv hcontra
  rw [hmain] at hcontra
  exact hcv (Option.some_injective _ hcontra.symm)

/-- Witness for C1 at a concrete request that carries a client-supplied
authorization header. -/
theorem c1_authorization_substituted_witness :
    (([("authorization", "Bearer client-supplied"), ("content-type", "application/json")] :
        Headers).all (fun p => lowerStr p.1 == p.1)) = true
    ∧ effectiveHeader
        (prepareHeaders
          [("authorization", "Bearer client-supplied"), ("content-type", "application/json")]
          "sk-test" "https://api.example.com/v1/chat/completions")
        "authorization" = some ("Bearer " ++ "sk-test") :=
  ⟨by decide,
   (c1_authorization_substituted
      [("authorization", "Bearer client-supplied"), ("content-type", "application/json")]
      "sk-test" "https://api.example.com/v1/chat/completions" (by decide)).1⟩

/-- Header-copy events contain no terminal log write. -/
theorem countP_isTerminalLog_hdrs (hs : Headers) :
    (setResponseHeadersEv hs).countP isTerminalLog = 0 := by
  rw [List.countP_eq_zero]
  intro e he
  simp only [setResponseHeadersEv, List.mem_map] at he
  obtain ⟨p, _, rfl⟩ := he
  simp [isTerminalLog]

/-- Header-copy events contain no response-completing write. -/
theorem countP_isResponseDone_hdrs (hs : Headers) :
    (setResponseHeadersEv hs).countP isResponseDone = 0 := by
  rw [List.countP_eq_zero]
  intro e he
  simp only [setResponseHeadersEv, List.mem_map] at he
  obtain ⟨p, _, rfl⟩ := he
  simp [isResponseDone]

/-- Chunk relays contain no terminal log write. -/
theorem countP_isTerminalLog_chunks (cs : List String) :
    (cs.map Ev.chunkOut).countP isTerminalLog = 0 := by
  rw [List.countP_eq_zero]
  intro e he
  simp only [List.mem_map] at he
  obtain ⟨s, _, rfl⟩ := he
  simp [isTerminalLog]

/-- Chunk relays contain no response-completing write. -/
theorem countP_isResponseDone_chunks (cs : List String) :
    (cs.map Ev.chunkOut).countP isResponseDone = 0 := by
  rw [List.countP_eq_zero]
  intro e he
  simp only [List.mem_map] at he
  obtain ⟨s, _, rfl⟩ := he
  simp [isResponseDone]

/-- C2. Every inbound request produces exactly one terminal log write (one
interaction record or one error record) and exactly one response-completing
write to the client, on every path of the model: buffered success,
streaming success with clean end, streaming upstream error, missing
configuration, invalid configuration, upstream error response, and
connection-level failure. -/
theorem c2_one_log_one_response (store : String → String → Option ProfileConfig)
    (req : Req) (transport : Transport) (requestId : String) :
    terminalLogCount (proxyRequest store req transport requestId) = 1
    ∧ responseCount (proxyRequest store req transport requestId) = 1 := by
  unfold proxyRequest terminalLogCount responseCount
  cases hstore : store req.profile req.version with
  | none =>
      constructor <;> simp [isTerminalLog, isResponseDone]
  | some config =>
      cases hv : validateConfig config with
      | false =>
          constructor <;> simp [hv, isTerminalLog, isResponseDone]
      | true =>
          cases transport with
          | httpErrResp status hs data =>
              constructor <;>
                simp [hv, List.countP_append, countP_isTerminalLog_hdrs, countP_isResponseDone_hdrs,
                  isTerminalLog, isResponseDone]
          | netErr code =>
              constructor <;> simp [hv, isTerminalLog, isResponseDone]
          | ok status hs body =>
              cases body with
              | buffered s =>
                  cases hm : isStreamingResponse (UpBody.buffered s) req.body <;>
                    (constructor <;>
                      simp [hv, hm, handleRegularEv, List.countP_append, countP_isTerminalLog_hdrs,
                        countP_isResponseDone_hdrs, isTerminalLog, isResponseDone])
              | stream chunks err =>
                  cases hm : isStreamingResponse (UpBody.stream chunks err) req.body with
                  | false =>
                      constructor <;>
                        simp [hv, hm, handleRegularEv, List.countP_append, countP_isTerminalLog_hdrs,
                          countP_isResponseDone_hdrs, isTerminalLog, isResponseDone]
                  | true =>
                      cases err with
                      | none =>
                          constructor <;>
                            simp [hv, hm, handleStreamingEv, List.countP_append,
                              countP_isTerminalLog_hdrs, countP_isResponseDone_hdrs,
                              countP_isTerminalLog_chunks, countP_isResponseDone_chunks,
                              isTerminalLog, isResponseDone]
                      | some m =>
                          constructor <;>
                            simp [hv, hm, handleStreamingEv, List.countP_append,
                              countP_isTerminalLog_hdrs, countP_isResponseDone_hdrs,
                              countP_isTerminalLog_chunks, countP_isResponseDone_chunks,
                              isTerminalLog, isResponseDone]

/-- C3. Code bug: when the upstream connection is refused or times out, the
catch block of proxyRequest never consults the error code — the axios error
carries neither a response nor a status field, so the final else branch
answers 500 Internal server error for every connection-level failure.  The
502 and 504 classifications exist only in the errorHandler middleware,
which the proxy path never reaches.  The first two conjuncts evaluate the
proxy on a refused and on a timed-out upstream; the last two show the
in-repository errorHandler classification that the claim describes. -/
theorem c3_refused_timeout_answered_500 :
    proxyRequest (fun _ _ => some ⟨"https://api.example.com", "sk-live"⟩)
        ⟨"openai", "v1", "v1/chat/completions", [("content-type", "application/json")],
          JsVal.vObj [("model", JsVal.vStr "gpt-4")], []⟩
        (Transport.netErr "ECONNREFUSED") "req_1"
      = [Ev.outbound (prepareHeaders [("content-type", "application/json")] "sk-live"
            "https://api.example.com/v1/chat/completions"),
         Ev.logFailure "Proxy request failed",
         Ev.sendErrJson 500 "Internal server error" (some "req_1")]
    ∧ proxyRequest (fun _ _ => some ⟨"https://api.example.com", "sk-live"⟩)
        ⟨"openai", "v1", "v1/chat/completions", [("content-type", "application/json")],
          JsVal.vObj [("model", JsVal.vStr "gpt-4")], []⟩
        (Transport.netErr "ETIMEDOUT") "req_2"
      = [Ev.outbound (prepareHeaders [("content-type", "application/json")] "sk-live"
            "https://api.example.com/v1/chat/completions"),
         Ev.logFailure "Proxy request failed",
         Ev.sendErrJson 500 "Internal server error" (some "req_2")]
    ∧ classifyError ⟨"connect ECONNREFUSED", none, some "ECONNREFUSED", none⟩
        = (502, "Bad Gateway - Unable to connect to upstream service")
    ∧ classifyError ⟨"timeout of 30000ms exceeded", none, some "ETIMEDOUT", none⟩
        = (504, "Gateway Timeout - Upstream service timeout") := by
  refine ⟨by decide, by decide, by decide, by decide⟩

/-- C5. For every (profile, version) pair the store does not know, the
proxy logs the failure and answers 404 with a JSON body whose error message
is exactly the configuration-not-found text carrying the requested profile
and version, together with the request correlation id. -/
theorem c5_missing_config_404 (store : String → String → Option ProfileConfig)
    (req : Req) (transport : Transport) (requestId : String)
    (h : store req.profile req.version = none) :
    proxyRequest store req transport requestId
      = [Ev.logFailure "Proxy request failed",
         Ev.sendErrJson 404 (cfgNotFoundMsg req.profile req.version) (some requestId)] := by
  unfold proxyRequest
  rw [h]

/-- Witness for C5 at the unconfigured pair foo, v9. -/
theorem c5_missing_config_404_witness :
    ((fun _ _ => none) : String → String → Option ProfileConfig) "foo" "v9" = none
    ∧ proxyRequest (fun _ _ => none)
        ⟨"foo", "v9", "models", [("content-type", "application/json")], JsVal.vNull, []⟩
        (Transport.ok 200 [] (UpBody.buffered "x")) "req_5"
      = [Ev.logFailure "Proxy request failed",
         Ev.sendErrJson 404 (cfgNotFoundMsg "foo" "v9") (some "req_5")] :=
  ⟨rfl, c5_missing_config_404 _ _ _ _ rfl⟩

/-- C6 counterexample: the claim says validateConfig accepts exactly the
configurations whose baseUrl and apiKey are non-empty strings, but a
whitespace-only baseUrl is a non-empty string that validateConfig
rejects. -/
theorem c6_nonempty_claim_counterexample :
    validateConfig ⟨" ", "sk-live"⟩ = false
    ∧ ProfileConfig.baseUrl ⟨" ", "sk-live"⟩ ≠ ""
    ∧ ProfileConfig.apiKey ⟨" ", "sk-live"⟩ ≠ "" := by
  refine ⟨by decide, by decide, by decide⟩

/-- C6 as amended: validateConfig accepts a configuration exactly when both
baseUrl and apiKey trim to non-empty strings, and a stored configuration
that fails validation makes the proxy log the failure and answer 500 with
the invalid-configuration message, a response distinct from the 404 answer
for a missing configuration (the two messages differ for every profile and
version). -/
theorem c6_invalid_config_500 :
    (∀ c : ProfileConfig,
        validateConfig c = true ↔ (trimStr c.baseUrl ≠ "" ∧ trimStr c.apiKey ≠ ""))
    ∧ (∀ (store : String → String → Option ProfileConfig) (req : Req)
        (transport : Transport) (requestId : String) (cfg : ProfileConfig),
        store req.profile req.version = some cfg → validateConfig cfg = false →
        proxyRequest store req transport requestId
          = [Ev.logFailure "Proxy request failed",
             Ev.sendErrJson 500 (invalidCfgMsg req.profile req.version) (some requestId)])
    ∧ (∀ p v, invalidCfgMsg p v ≠ cfgNotFoundMsg p v) := by
  refine ⟨?_, ?_, ?_⟩
  · intro c
    simp [validateConfig]
  · intro store req transport requestId cfg hstore hval
    unfold proxyRequest
    rw [hstore]
    simp [hval]
  · intro p v h
    have h1 : (invalidCfgMsg p v).data.head? = some (Char.ofNat 73) := rfl
    have h2 : (cfgNotFoundMsg p v).data.head? = some (Char.ofNat 67) := rfl
    rw [h] at h1
    rw [h2] at h1
    exact absurd h1 (by decide)

/-- Witness for C6 at a concrete store holding a blank baseUrl. -/
theorem c6_invalid_config_500_witness :
    validateConfig ⟨" ", "sk-live"⟩ = false
    ∧ proxyRequest (fun _ _ => some ⟨" ", "sk-live"⟩)
        ⟨"openai", "v1", "models", [], JsVal.vNull, []⟩
        (Transport.ok 200 [] (UpBody.buffered "x")) "req_6"
      = [Ev.logFailure "Proxy request failed",
         Ev.sendErrJson 500 (invalidCfgMsg "openai" "v1") (some "req_6")] :=
  ⟨by decide, c6_invalid_config_500.2.1 _ _ _ _ _ rfl (by decide)⟩

/-- Strict equality with true holds exactly of the boolean true value. -/
theorem isStreamTrue_iff (o : Option JsVal) :
    isStreamTrue o = true ↔ o = some (JsVal.vBool true) := by
  cases o with
  | none => simp [isStreamTrue]
  | some v =>
      cases v with
      | vBool b => cases b <;> simp [isStreamTrue]
      | vNull => simp [isStreamTrue]
      | vUndefined => simp [isStreamTrue]
      | vNum n => simp [isStreamTrue]
      | vStr s => simp [isStreamTrue]
      | vObj fs => simp [isStreamTrue]

/-- C7. Relay-mode selection: the streaming handler is chosen exactly when
the inbound body is an object whose stream field is strictly true and the
upstream body is an incremental source; in every other situation the
response is handled in buffered mode, whatever content type the upstream
response headers carry — in particular an upstream that sends a streaming
content type unprompted is relayed buffered. -/
theorem c7_mode_selection :
    (∀ (d : UpBody) (b : JsVal),
        isStreamingResponse d b = true ↔
          ((∃ fs, b = JsVal.vObj fs) ∧ jsField b "stream" = some (JsVal.vBool true)
            ∧ ∃ cs e, d = UpBody.stream cs e))
    ∧ (∀ (store : String → String → Option ProfileConfig) (req : Req)
        (cfg : ProfileConfig) (status : Nat) (hs : Headers) (s requestId : String),
        store req.profile req.version = some cfg → validateConfig cfg = true →
        proxyRequest store req (Transport.ok status hs (UpBody.buffered s)) requestId
          = Ev.outbound (prepareHeaders req.headers cfg.apiKey (cfg.baseUrl ++ "/" ++ req.path))
              :: setResponseHeadersEv hs ++ [Ev.stat status] ++ handleRegularEv status s) := by
  constructor
  · intro d b
    constructor
    · intro h
      simp only [isStreamingResponse, Bool.and_eq_true] at h
      obtain ⟨⟨⟨ht, hst⟩, hu⟩, hon⟩ := h
      rw [isStreamTrue_iff] at hst
      cases d with
      | buffered s => exact absurd hon (by simp [upHasOn])
      | stream cs e =>
          cases b with
          | vObj fs => exact ⟨⟨fs, rfl⟩, hst, cs, e, rfl⟩
          | vNull => exact absurd hst (by simp [jsField])
          | vUndefined => exact absurd hst (by simp [jsField])
          | vBool x => exact absurd hst (by simp [jsField])
          | vNum n => exact absurd hst (by simp [jsField])
          | vStr s => exact absurd hst (by simp [jsField])
    · rintro ⟨⟨fs, rfl⟩, hf, cs, e, rfl⟩
      simp [isStreamingResponse, jsTruthy, upTruthy, upHasOn, hf, isStreamTrue]
  · intro store req cfg status hs s requestId hstore hval
    unfold proxyRequest
    rw [hstore]
    simp [hval, textOfUpBody, handleRegularEv]

/-- Witness for C7: a buffered upstream response that carries a streaming
content type is still relayed buffered when the inbound body lacks the
stream flag. -/
theorem c7_mode_selection_witness :
    proxyRequest (fun _ _ => some ⟨"https://api.example.com", "sk-live"⟩)
        ⟨"openai", "v1", "models", [], JsVal.vNull, []⟩
        (Transport.ok 200 [("content-type", "text/event-stream")] (UpBody.buffered "ok"))
        "req_7"
      = Ev.outbound (prepareHeaders [] "sk-live" ("https://api.example.com" ++ "/" ++ "models"))
          :: setResponseHeadersEv [("content-type", "text/event-stream")]
          ++ [Ev.stat 200] ++ handleRegularEv 200 "ok" :=
  c7_mode_selection.2 _ _ _ _ _ _ _ rfl (by decide)

/-- C8. The headers that setResponseHeaders copies from an upstream
response to the client never include a transfer-encoding or connection
header, under any casing of those names. -/
theorem c8_hop_by_hop_never_copied (hs : Headers) (k v : String)
    (hmem : Ev.hdr k v ∈ setResponseHeadersEv hs) :
    lowerStr k ≠ "transfer-encoding" ∧ lowerStr k ≠ "connection" := by
  simp only [setResponseHeadersEv, List.mem_map, List.mem_filter] at hmem
  obtain ⟨p, ⟨hp, hcond⟩, heq⟩ := hmem
  obtain ⟨h1, h2⟩ := Ev.hdr.inj heq
  subst h1
  simp at hcond
  exact ⟨hcond.1, hcond.2⟩

/-- Witness for C8 on a concrete upstream header set containing a
Transfer-Encoding header. -/
theorem c8_hop_by_hop_never_copied_witness :
    lowerStr "Content-Type" ≠ "transfer-encoding"
    ∧ lowerStr "Content-Type" ≠ "connection" :=
  c8_hop_by_hop_never_copied
    [("Content-Type", "application/json"), ("Transfer-Encoding", "chunked"),
     ("Connection", "close")]
    "Content-Type" "application/json" (by decide)

/-- Header-copy events write no chunk. -/
theorem writesOf_setHeaders (hs : Headers) : writesOf (setResponseHeadersEv hs) = [] := by
  simp only [writesOf, List.filterMap_eq_nil_iff]
  intro e he
  simp only [setResponseHeadersEv, List.mem_map] at he
  obtain ⟨p, _, rfl⟩ := he
  rfl

/-- Header-copy events log no interaction record. -/
theorem okLogBodies_setHeaders (hs : Headers) : okLogBodies (setResponseHeadersEv hs) = [] := by
  simp only [okLogBodies, List.filterMap_eq_nil_iff]
  intro e he
  simp only [setResponseHeadersEv, List.mem_map] at he
  obtain ⟨p, _, rfl⟩ := he
  rfl

/-- Header-copy events log no error record. -/
theorem errLogMsgs_setHeaders (hs : Headers) : errLogMsgs (setResponseHeadersEv hs) = [] := by
  simp only [errLogMsgs, List.filterMap_eq_nil_iff]
  intro e he
  simp only [setResponseHeadersEv, List.mem_map] at he
  obtain ⟨p, _, rfl⟩ := he
  rfl

/-- Chunk relays write exactly the relayed chunks, in order. -/
theorem writesOf_chunkMap (cs : List String) : writesOf (cs.map Ev.chunkOut) = cs := by
  induction cs with
  | nil => rfl
  | cons c cs ih => simpa [writesOf] using ih

/-- Chunk relays log no interaction record. -/
theorem okLogBodies_chunkMap (cs : List String) : okLogBodies (cs.map Ev.chunkOut) = [] := by
  induction cs with
  | nil => rfl
  | cons c cs ih => simp [okLogBodies]

/-- Chunk relays log no error record. -/
theorem errLogMsgs_chunkMap (cs : List String) : errLogMsgs (cs.map Ev.chunkOut) = [] := by
  induction cs with
  | nil => rfl
  | cons c cs ih => simp [errLogMsgs]

/-- C4. For a streaming-mode request whose upstream emits its chunks and
then completes, the trace is exactly the relayed headers, the status, the
streaming prologue, one client write per chunk in emission order with no
reordering, drop or duplication, the close of the connection, and exactly
one interaction record whose response body is the concatenation of the
chunks; no error record is written. -/
theorem c4_streaming_relay (store : String → String → Option ProfileConfig) (req : Req)
    (cfg : ProfileConfig) (status : Nat) (hs : Headers) (chunks : List String)
    (requestId : String)
    (hstore : store req.profile req.version = some cfg)
    (hval : validateConfig cfg = true)
    (hstream : isStreamingResponse (UpBody.stream chunks none) req.body = true) :
    proxyRequest store req (Transport.ok status hs (UpBody.stream chunks none)) requestId
      = Ev.outbound (prepareHeaders req.headers cfg.apiKey (cfg.baseUrl ++ "/" ++ req.path))
          :: setResponseHeadersEv hs ++ [Ev.stat status]
          ++ handleStreamingEv status hs chunks none
    ∧ writesOf (proxyRequest store req (Transport.ok status hs (UpBody.stream chunks none))
        requestId) = chunks
    ∧ okLogBodies (proxyRequest store req (Transport.ok status hs (UpBody.stream chunks none))
        requestId) = [String.join chunks]
    ∧ errLogMsgs (proxyRequest store req (Transport.ok status hs (UpBody.stream chunks none))
        requestId) = [] := by
  have htrace : proxyRequest store req (Transport.ok status hs (UpBody.stream chunks none))
      requestId
      = Ev.outbound (prepareHeaders req.headers cfg.apiKey (cfg.baseUrl ++ "/" ++ req.path))
          :: setResponseHeadersEv hs ++ [Ev.stat status]
          ++ handleStreamingEv status hs chunks none := by
    unfold proxyRequest
    rw [hstore]
    simp [hval, hstream]
  refine ⟨htrace, ?_, ?_, ?_⟩
  · rw [htrace]
    have hA := writesOf_setHeaders hs
    have hB := writesOf_chunkMap chunks
    simp only [writesOf] at hA hB ⊢
    simp [handleStreamingEv, List.filterMap_cons, List.filterMap_append, ← List.filterMap_map,
      hA, hB]
  · rw [htrace]
    have hA := okLogBodies_setHeaders hs
    have hB := okLogBodies_chunkMap chunks
    simp only [okLogBodies] at hA hB ⊢
    simp [handleStreamingEv, List.filterMap_cons, List.filterMap_append, ← List.filterMap_map,
      hA, hB]
  · rw [htrace]
    have hA := errLogMsgs_setHeaders hs
    have hB := errLogMsgs_chunkMap chunks
    simp only [errLogMsgs] at hA hB ⊢
    simp [handleStreamingEv, List.filterMap_cons, List.filterMap_append, ← List.filterMap_map,
      hA, hB]

/-- Witness for C4 on a concrete two-chunk stream. -/
theorem c4_streaming_relay_witness :
    proxyRequest (fun _ _ => some ⟨"https://api.example.com", "sk-live"⟩)
        ⟨"openai", "v1", "v1/chat/completions", [],
          JsVal.vObj [("stream", JsVal.vBool true)], []⟩
        (Transport.ok 200 [("content-type", "text/event-stream")]
          (UpBody.stream ["data: a\n\n", "data: b\n\n"] none)) "req_8"
      = Ev.outbound (prepareHeaders [] "sk-live"
            ("https://api.example.com" ++ "/" ++ "v1/chat/completions"))
          :: setResponseHeadersEv [("content-type", "text/event-stream")]
          ++ [Ev.stat 200]
          ++ handleStreamingEv 200 [("content-type", "text/event-stream")]
              ["data: a\n\n", "data: b\n\n"] none
    ∧ writesOf (proxyRequest (fun _ _ => some ⟨"https://api.example.com", "sk-live"⟩)
        ⟨"openai", "v1", "v1/chat/completions", [],
          JsVal.vObj [("stream", JsVal.vBool true)], []⟩
        (Transport.ok 200 [("content-type", "text/event-stream")]
          (UpBody.stream ["data: a\n\n", "data: b\n\n"] none)) "req_8")
        = ["data: a\n\n", "data: b\n\n"]
    ∧ okLogBodies (proxyRequest (fun _ _ => some ⟨"https://api.example.com", "sk-live"⟩)
        ⟨"openai", "v1", "v1/chat/completions", [],
          JsVal.vObj [("stream", JsVal.vBool true)], []⟩
        (Transport.ok 200 [("content-type", "text/event-stream")]
          (UpBody.stream ["data: a\n\n", "data: b\n\n"] none)) "req_8")
        = [String.join ["data: a\n\n", "data: b\n\n"]]
    ∧ errLogMsgs (proxyRequest (fun _ _ => some ⟨"https://api.example.com", "sk-live"⟩)
        ⟨"openai", "v1", "v1/chat/completions", [],
          JsVal.vObj [("stream", JsVal.vBool true)], []⟩
        (Transport.ok 200 [("content-type", "text/event-stream")]
          (UpBody.stream ["data: a\n\n", "data: b\n\n"] none)) "req_8")
        = [] :=
  c4_streaming_relay (fun _ _ => some ⟨"https://api.example.com", "sk-live"⟩)
    ⟨"openai", "v1", "v1/chat/completions", [],
      JsVal.vObj [("stream", JsVal.vBool true)], []⟩
    ⟨"https://api.example.com", "sk-live"⟩ 200 [("content-type", "text/event-stream")]
    ["data: a\n\n", "data: b\n\n"] "req_8" rfl (by decide) (by decide)

/-- Lookup through a cons cell of a header map. -/
theorem jsGet_cons (a b : String) (t : Headers) (k : String) :
    jsGet ((a, b) :: t) k = if a == k then some b else jsGet t k := by
  cases h : a == k with
  | true =>
      have hp : (fun p : String × String => p.1 == k) (a, b) = true := h
      simp [jsGet, List.find?_cons_of_pos _ hp, h]
  | false =>
      have hp : ¬((fun p : String × String => p.1 == k) (a, b) = true) := by simp [h]
      simp [jsGet, List.find?_cons_of_neg _ hp, h]

/-- Truthiness of the lookup of a key, as the sanitizer guard tests it. -/
def truthyAt (hs : Headers) (k : String) : Bool :=
  match jsGet hs k with
  | some v => v != ""
  | none => false

/-- In-place replacement of every binding of a key by the redaction marker. -/
def mapRedact (k : String) (hs : Headers) : Headers :=
  hs.map (fun p => if p.1 == k then (k, REDACTED) else p)

/-- Unfolding of the in-place replacement on a cons cell. -/
theorem mapRedact_cons (k a b : String) (t : Headers) :
    mapRedact k ((a, b) :: t)
      = (if a == k then (k, REDACTED) else (a, b)) :: mapRedact k t := rfl

/-- A successful lookup means the key is present. -/
theorem jsGet_some_any (hs : Headers) (k v : String) (h : jsGet hs k = some v) :
    hs.any (fun p => p.1 == k) = true := by
  unfold jsGet at h
  cases hf : hs.find? (fun p => p.1 == k) with
  | none => rw [hf] at h; exact absurd h (by simp)
  | some p =>
      have hmem := List.mem_of_find?_eq_some hf
      have hcond := List.find?_some hf
      exact List.any_eq_true.mpr ⟨p, hmem, hcond⟩

/-- One sanitizer step either leaves the map unchanged or replaces the
bindings of its key by the redaction marker, depending on the guard. -/
theorem redact_eq (hs : Headers) (k : String) :
    redactIfTruthy hs k = if truthyAt hs k then mapRedact k hs else hs := by
  unfold redactIfTruthy truthyAt
  cases hg : jsGet hs k with
  | none => rfl
  | some v =>
      cases hv : (v != "") with
      | false => simp [hv]
      | true =>
          simp only [hv, if_true]
          have hany := jsGet_some_any hs k v hg
          simp [jsSet, hany, mapRedact]

/-- Redacting a key turns its lookup into the marker, preserving absence. -/
theorem jsGet_mapRedact_self (hs : Headers) (k : String) :
    jsGet (mapRedact k hs) k = (jsGet hs k).map (fun _ => REDACTED) := by
  induction hs with
  | nil => rfl
  | cons p t ih =>
      obtain ⟨a, b⟩ := p
      rw [mapRedact_cons]
      by_cases h : a = k
      · subst h
        simp [jsGet_cons, ih]
      · simp [jsGet_cons, h, ih]

/-- Redacting one key does not change the lookup of another. -/
theorem jsGet_mapRedact_ne (hs : Headers) (k k0 : String) (h : k ≠ k0) :
    jsGet (mapRedact k0 hs) k = jsGet hs k := by
  induction hs with
  | nil => rfl
  | cons p t ih =>
      obtain ⟨a, b⟩ := p
      rw [mapRedact_cons]
      by_cases h0 : a = k0
      · subst h0
        simp [jsGet_cons, Ne.symm h, ih]
      · simp [jsGet_cons, h0, ih]

/-- Replacing the bindings of a key twice equals replacing them once. -/
theorem mapRedact_idem (hs : Headers) (k : String) :
    mapRedact k (mapRedact k hs) = mapRedact k hs := by
  induction hs with
  | nil => rfl
  | cons p t ih =>
      obtain ⟨a, b⟩ := p
      rw [mapRedact_cons]
      by_cases h : a = k
      · subst h
        simp [mapRedact_cons, ih]
      · simp [mapRedact_cons, h, ih]

/-- Replacements of different keys commute. -/
theorem mapRedact_comm (hs : Headers) (k k0 : String) (h : k ≠ k0) :
    mapRedact k (mapRedact k0 hs) = mapRedact k0 (mapRedact k hs) := by
  induction hs with
  | nil => rfl
  | cons p t ih =>
      obtain ⟨a, b⟩ := p
      rw [mapRedact_cons k0, mapRedact_cons k]
      by_cases h0 : a = k0
      · subst h0
        simp [mapRedact_cons, Ne.symm h, h, ih]
      · by_cases h1 : a = k
        · subst h1
          simp [mapRedact_cons, h, h0, ih]
        · simp [mapRedact_cons, h0, h1, ih]

/-- The guard of one key is unaffected by redacting another key. -/
theorem truthyAt_mapRedact_ne (hs : Headers) (k k0 : String) (h : k ≠ k0) :
    truthyAt (mapRedact k0 hs) k = truthyAt hs k := by
  unfold truthyAt
  rw [jsGet_mapRedact_ne hs k k0 h]

/-- A truthy guard stays truthy after its own redaction. -/
theorem truthyAt_mapRedact_self (hs : Headers) (k : String) (h : truthyAt hs k = true) :
    truthyAt (mapRedact k hs) k = true := by
  unfold truthyAt at h ⊢
  rw [jsGet_mapRedact_self]
  cases hg : jsGet hs k with
  | none => rw [hg] at h; exact absurd h (by simp)
  | some v => simp [REDACTED]

/-- One sanitizer step is idempotent. -/
theorem redact_idem (hs : Headers) (k : String) :
    redactIfTruthy (redactIfTruthy hs k) k = redactIfTruthy hs k := by
  rw [redact_eq hs k]
  cases ht : truthyAt hs k with
  | false => simp [redact_eq, ht]
  | true =>
      simp only [if_true]
      rw [redact_eq]
      rw [truthyAt_mapRedact_self hs k ht]
      simp [mapRedact_idem]

/-- Sanitizer steps of different keys commute. -/
theorem redact_comm (hs : Headers) (k k0 : String) (h : k ≠ k0) :
    redactIfTruthy (redactIfTruthy hs k0) k = redactIfTruthy (redactIfTruthy hs k) k0 := by
  rw [redact_eq hs k0, redact_eq hs k]
  cases ht0 : truthyAt hs k0 <;> cases ht : truthyAt hs k <;>
    simp [redact_eq, ht, ht0, truthyAt_mapRedact_ne hs k0 k (Ne.symm h),
      truthyAt_mapRedact_ne hs k k0 h, mapRedact_comm hs k k0 h]

/-- The request-header sanitizing pass is idempotent. -/
theorem foldlReq_idem (hs : Headers) :
    sensitiveRequestHeaders.foldl redactIfTruthy
        (sensitiveRequestHeaders.foldl redactIfTruthy hs)
      = sensitiveRequestHeaders.foldl redactIfTruthy hs := by
  simp only [sensitiveRequestHeaders, List.foldl_cons, List.foldl_nil]
  rw [redact_comm _ "authorization" "cookie" (by decide)]
  rw [redact_comm _ "authorization" "x-api-key" (by decide)]
  rw [redact_idem]
  rw [redact_comm _ "x-api-key" "cookie" (by decide)]
  rw [redact_idem]
  rw [redact_idem]

/-- The response-header sanitizing pass is idempotent. -/
theorem foldlResp_idem (hs : Headers) :
    sensitiveResponseHeaders.foldl redactIfTruthy
        (sensitiveResponseHeaders.foldl redactIfTruthy hs)
      = sensitiveResponseHeaders.foldl redactIfTruthy hs := by
  simp only [sensitiveResponseHeaders, List.foldl_cons, List.foldl_nil]
  rw [redact_comm _ "set-cookie" "authorization" (by decide)]
  rw [redact_idem]
  rw [redact_idem]

/-- C9. Redaction is idempotent: sanitizing a log record twice yields the
same record as sanitizing it once. -/
theorem c9_sanitize_idempotent (d : LogRecord) :
    sanitizeLogData (sanitizeLogData d) = sanitizeLogData d := by
  obtain ⟨oreq, oresp, rid, dur⟩ := d
  cases oreq with
  | none =>
      cases oresp with
      | none => rfl
      | some p => simp [sanitizeLogData, jsonClone, foldlResp_idem]
  | some r =>
      cases oresp with
      | none => simp [sanitizeLogData, jsonClone, foldlReq_idem]
      | some p => simp [sanitizeLogData, jsonClone, foldlReq_idem, foldlResp_idem]

/-- Lookup of a key after its own sanitizer step: a truthy value becomes
the marker, the empty string and an absent key are left untouched. -/
theorem jsGet_redact_self (hs : Headers) (k : String) :
    jsGet (redactIfTruthy hs k) k
      = (jsGet hs k).map (fun v => if v == "" then v else REDACTED) := by
  rw [redact_eq]
  cases hg : jsGet hs k with
  | none =>
      have ht : truthyAt hs k = false := by unfold truthyAt; rw [hg]
      simp [ht, hg]
  | some v =>
      cases hv : (v == "") with
      | true =>
          have he : v = "" := eq_of_beq hv
          have ht : truthyAt hs k = false := by
            unfold truthyAt; rw [hg]; simp [he]
          simp [ht, hg, he]
      | false =>
          have ht : truthyAt hs k = true := by
            unfold truthyAt; rw [hg]; simp [bne, hv]
          have hne : ¬v = "" := by
            intro he
            rw [he] at hv
            simp at hv
          simp [ht, jsGet_mapRedact_self, hg, hne]

/-- Lookup of a key after the sanitizer step of a different key. -/
theorem jsGet_redact_ne (hs : Headers) (k k0 : String) (h : k ≠ k0) :
    jsGet (redactIfTruthy hs k0) k = jsGet hs k := by
  rw [redact_eq]
  cases ht : truthyAt hs k0 with
  | false => simp
  | true => simp [jsGet_mapRedact_ne hs k k0 h]

/-- C10. The sanitizer replaces a sensitive header with the redaction
marker only when its value is truthy: a sensitive header carrying the empty
string is left unredacted, an absent one stays absent, and only the exact
lowercase key spellings of the two sensitive lists are checked — every
other key, including capitalised spellings of the sensitive names, keeps
its value. -/
theorem c10_truthy_guard_and_exact_keys (r : ReqSnap) (p : RespSnap) (rid : String)
    (dur : Nat) :
    (∀ k, k ∈ sensitiveRequestHeaders →
      jsGet (requestHeadersOf (sanitizeLogData ⟨some r, some p, rid, dur⟩)) k
        = (jsGet r.headers k).map (fun v => if v == "" then v else REDACTED))
    ∧ (∀ k, k ∉ sensitiveRequestHeaders →
      jsGet (requestHeadersOf (sanitizeLogData ⟨some r, some p, rid, dur⟩)) k
        = jsGet r.headers k)
    ∧ (∀ k, k ∈ sensitiveResponseHeaders →
      jsGet (responseHeadersOf (sanitizeLogData ⟨some r, some p, rid, dur⟩)) k
        = (jsGet p.headers k).map (fun v => if v == "" then v else REDACTED))
    ∧ (∀ k, k ∉ sensitiveResponseHeaders →
      jsGet (responseHeadersOf (sanitizeLogData ⟨some r, some p, rid, dur⟩)) k
        = jsGet p.headers k) := by
  have hreq : requestHeadersOf (sanitizeLogData ⟨some r, some p, rid, dur⟩)
      = redactIfTruthy (redactIfTruthy (redactIfTruthy r.headers "authorization")
          "x-api-key") "cookie" := rfl
  have hresp : responseHeadersOf (sanitizeLogData ⟨some r, some p, rid, dur⟩)
      = redactIfTruthy (redactIfTruthy p.headers "set-cookie") "authorization" := rfl
  refine ⟨?_, ?_, ?_, ?_⟩
  · intro k hk
    simp only [sensitiveRequestHeaders, List.mem_cons, List.mem_singleton,
      List.not_mem_nil, or_false] at hk
    rcases hk with rfl | rfl | rfl
    · rw [hreq, jsGet_redact_ne _ _ _ (by decide), jsGet_redact_ne _ _ _ (by decide),
        jsGet_redact_self]
    · rw [hreq, jsGet_redact_ne _ _ _ (by decide), jsGet_redact_self,
        jsGet_redact_ne _ _ _ (by decide)]
    · rw [hreq, jsGet_redact_self, jsGet_redact_ne _ _ _ (by decide),
        jsGet_redact_ne _ _ _ (by decide)]
  · intro k hk
    have hk3 : k ≠ "authorization" ∧ k ≠ "x-api-key" ∧ k ≠ "cookie" := by
      simpa [sensitiveRequestHeaders] using hk
    rw [hreq, jsGet_redact_ne _ _ _ hk3.2.2, jsGet_redact_ne _ _ _ hk3.2.1,
      jsGet_redact_ne _ _ _ hk3.1]
  · intro k hk
    simp only [sensitiveResponseHeaders, List.mem_cons, List.mem_singleton,
      List.not_mem_nil, or_false] at hk
    rcases hk with rfl | rfl
    · rw [hresp, jsGet_redact_ne _ _ _ (by decide), jsGet_redact_self]
    · rw [hresp, jsGet_redact_self, jsGet_redact_ne _ _ _ (by decide)]
  · intro k hk
    have hk2 : k ≠ "set-cookie" ∧ k ≠ "authorization" := by
      simpa [sensitiveResponseHeaders] using hk
    rw [hresp, jsGet_redact_ne _ _ _ hk2.2, jsGet_redact_ne _ _ _ hk2.1]

/-- Witness for C10 on a concrete record holding an empty-string
authorization header, a truthy x-api-key header, a capitalised
Authorization header, and a truthy set-cookie response header. -/
theorem c10_truthy_guard_and_exact_keys_witness :
    jsGet (requestHeadersOf (sanitizeLogData
        ⟨some ⟨"POST", "/openai/v1/chat/completions",
            [("authorization", ""), ("x-api-key", "secret"),
             ("Authorization", "Bearer caps")], "body"⟩,
         some ⟨200, [("set-cookie", "sid=1"), ("content-type", "application/json")], "ok"⟩,
         "req_9", 5⟩)) "authorization"
      = (jsGet [("authorization", ""), ("x-api-key", "secret"),
          ("Authorization", "Bearer caps")] "authorization").map
          (fun v => if v == "" then v else REDACTED)
    ∧ jsGet (requestHeadersOf (sanitizeLogData
        ⟨some ⟨"POST", "/openai/v1/chat/completions",
            [("authorization", ""), ("x-api-key", "secret"),
             ("Authorization", "Bearer caps")], "body"⟩,
         some ⟨200, [("set-cookie", "sid=1"), ("content-type", "application/json")], "ok"⟩,
         "req_9", 5⟩)) "x-api-key"
      = (jsGet [("authorization", ""), ("x-api-key", "secret"),
          ("Authorization", "Bearer caps")] "x-api-key").map
          (fun v => if v == "" then v else REDACTED)
    ∧ jsGet (requestHeadersOf (sanitizeLogData
        ⟨some ⟨"POST", "/openai/v1/chat/completions",
            [("authorization", ""), ("x-api-key", "secret"),
             ("Authorization", "Bearer caps")], "body"⟩,
         some ⟨200, [("set-cookie", "sid=1"), ("content-type", "application/json")], "ok"⟩,
         "req_9", 5⟩)) "Authorization"
      = jsGet [("authorization", ""), ("x-api-key", "secret"),
          ("Authorization", "Bearer caps")] "Authorization"
    ∧ jsGet (responseHeadersOf (sanitizeLogData
        ⟨some ⟨"POST", "/openai/v1/chat/completions",
            [("authorization", ""), ("x-api-key", "secret"),
             ("Authorization", "Bearer caps")], "body"⟩,
         some ⟨200, [("set-cookie", "sid=1"), ("content-type", "application/json")], "ok"⟩,
         "req_9", 5⟩)) "set-cookie"
      = (jsGet [("set-cookie", "sid=1"), ("content-type", "application/json")]
          "set-cookie").map (fun v => if v == "" then v else REDACTED)
    ∧ jsGet (responseHeadersOf (sanitizeLogData
        ⟨some ⟨"POST", "/openai/v1/chat/completions",
            [("authorization", ""), ("x-api-key", "secret"),
             ("Authorization", "Bearer caps")], "body"⟩,
         some ⟨200, [("set-cookie", "sid=1"), ("content-type", "application/json")], "ok"⟩,
         "req_9", 5⟩)) "content-type"
      = jsGet [("set-cookie", "sid=1"), ("content-type", "application/json")]
          "content-type" :=
  ⟨(c10_truthy_guard_and_exact_keys
      ⟨"POST", "/openai/v1/chat/completions",
        [("authorization", ""), ("x-api-key", "secret"), ("Authorization", "Bearer caps")],
        "body"⟩
      ⟨200, [("set-cookie", "sid=1"), ("content-type", "application/json")], "ok"⟩
      "req_9" 5).1 "authorization" (by decide),
   (c10_truthy_guard_and_exact_keys
      ⟨"POST", "/openai/v1/chat/completions",
        [("authorization", ""), ("x-api-key", "secret"), ("Authorization", "Bearer caps")],
        "body"⟩
      ⟨200, [("set-cookie", "sid=1"), ("content-type", "application/json")], "ok"⟩
      "req_9" 5).1 "x-api-key" (by decide),
   (c10_truthy_guard_and_exact_keys
      ⟨"POST", "/openai/v1/chat/completions",
        [("authorization", ""), ("x-api-key", "secret"), ("Authorization", "Bearer caps")],
        "body"⟩
      ⟨200, [("set-cookie", "sid=1"), ("content-type", "application/json")], "ok"⟩
      "req_9" 5).2.1 "Authorization" (by decide),
   (c10_truthy_guard_and_exact_keys
      ⟨"POST", "/openai/v1/chat/completions",
        [("authorization", ""), ("x-api-key", "secret"), ("Authorization", "Bearer caps")],
        "body"⟩
      ⟨200, [("set-cookie", "sid=1"), ("content-type", "application/json")], "ok"⟩
      "req_9" 5).2.2.1 "set-cookie" (by decide),
   (c10_truthy_guard_and_exact_keys
      ⟨"POST", "/openai/v1/chat/completions",
        [("authorization", ""), ("x-api-key", "secret"), ("Authorization", "Bearer caps")],
        "body"⟩
      ⟨200, [("set-cookie", "sid=1"), ("content-type", "application/json")], "ok"⟩
      "req_9" 5).2.2.2 "content-type" (by decide)⟩
